import Mathlib

/-!
Verification of the sedna-ruby C extension (`ext/sedna.c`): a shallow
embedding of its error-text classifier, its result-set streaming, its
connection lifecycle and its transaction control, together with theorems
settling the specification claims about them.

The Driver (the Sedna C client library `libsedna`) is external: it is
modelled by a `Driver` record of result codes, and the Ruby-level
non-local exits captured by `rb_protect` / re-raised by `rb_jump_tag`
are modelled by an explicit `Option RubyJump` component of every outcome.
-/

set_option autoImplicit false

namespace SednaExt

/-! ## Error-text parsing (`sedna_err`, ext/sedna.c lines 130-169)

`sedna_err` reads `msg = SEgetLastErrorMsg(conn)` and manipulates the
buffer in place with `strstr`/`strncpy`.  We embed the message text as a
`List Char` (a C string without interior NUL bytes) and reproduce the
pointer arithmetic with indices.  The embedding returns `Option`:
`none` models the undefined behaviour of the source line
`details = strstr(err, "\nDetails: ");`, which passes `err = NULL` to
`strstr` whenever the message contains no line break (the NULL test
`if(err != NULL)` comes only after that call). -/

/-- Index of the first occurrence of `needle` as a contiguous sublist of
`hay` (the embedding of C `strstr`, returning an offset instead of a
pointer, `none` for `NULL`). -/
def findSub : List Char → List Char → Option Nat
  | [], needle => if needle = [] then some 0 else none
  | c :: cs, needle =>
      if needle.isPrefixOf (c :: cs) then some 0
      else (findSub cs needle).map (· + 1)

/-- The marker `"\nDetails: "` searched for by `sedna_err`; its length is
the fixed offset `10` added to the `details` pointer. -/
def detailsMarker : List Char := '\n' :: "Details: ".toList

/-- The message text produced by `sedna_err` (the `%s` / `%s (%s)`
argument(s) of its `rb_raise`), embedded from ext/sedna.c lines 151-168.

* `n1` is `err = strstr(msg, "\n")`.
* If `n1` does not exist, the source next evaluates
  `strstr(NULL, "\nDetails: ")` — undefined behaviour, modelled `none`
  (the `else { err = "Unknown error."; }` branch is unreachable without
  first passing through that call).
* `d` is `details = strstr(err, "\nDetails: ")`, an offset into the very
  same buffer (every occurrence starts with `'\n'`, so searching the
  suffix starting at `n1` finds the globally first occurrence).
* `p` is the second line break; `strncpy(p, "\0", 1)` terminates the
  primary message there, and — because `details` points into the same
  buffer — also terminates the details text when `d + 10 ≤ p` (which
  happens exactly when the marker sits at the first line break).
* The final `while` loop overwrites every `'\n'` of the details text,
  its trailing one included, with `' '`. -/
def sedna_err_msg (msg : List Char) : Option (List Char) :=
  match findSub msg ['\n'] with
  | none => none
  | some n1 =>
      let tail := msg.drop (n1 + 1)
      let dIdx := (findSub (msg.drop n1) detailsMarker).map (· + n1)
      let pIdx := (findSub tail ['\n']).map (· + (n1 + 1))
      let err := match pIdx with
        | some p => tail.take (p - (n1 + 1))
        | none => tail
      match dIdx with
      | none => some err
      | some d =>
          let stop := match pIdx with
            | some p => if d + 10 ≤ p then p else msg.length
            | none => msg.length
          let details :=
            ((msg.drop (d + 10)).take (stop - (d + 10))).map
              (fun ch => if ch = '\n' then ' ' else ch)
          some (err ++ (' ' :: '(' :: details) ++ [')'])

/-! ## Result streaming (`sedna_read` / `sedna_get_results`,
ext/sedna.c lines 229-277)

A record arrives as the sequence of byte blocks returned by successive
`SEgetData` calls; a call returning `0` bytes ends the record.  We embed
a record as the `List (List Nat)` of those blocks (each block is the
bytes of one read; the driver returns at most `RESULT_BUF_LEN - 1` of
them per call, a bound nothing below depends on) and a drained result
set as the list of records handed out by `SEnext` before
`SEDNA_RESULT_END`.  The error returns (`SEDNA_ERROR` from `SEgetData`
or `SEnext`, which `sedna_err` turns into a raise) do not occur in this
driver model: the claims below are about successfully drained sets. -/

/-- One record read by `sedna_read conn strip_n`: concatenate the byte
blocks until a zero-byte read, dropping the single leading byte of the
first non-empty block when `strip_n` is set (and of no later block:
the source resets `strip_n = 0` right after stripping). -/
def sedna_read (strip_n : Bool) : List (List Nat) → List Nat
  | [] => []
  | block :: rest =>
      if block.length = 0 then []
      else (if strip_n then block.drop 1 else block) ++ sedna_read false rest

/-- The loop of `sedna_get_results`: `strip_n` starts at `0` and is set
to `1` after the first record (`if(!strip_n) strip_n = 1;`), staying `1`
from then on. -/
def sedna_get_results_aux (strip_n : Bool) : List (List (List Nat))
    → List (List Nat)
  | [] => []
  | record :: rest => sedna_read strip_n record :: sedna_get_results_aux true rest

/-- `sedna_get_results`: drain every record into an array, stripping the
spurious leading byte of every record after the first. -/
def sedna_get_results (records : List (List (List Nat))) : List (List Nat) :=
  sedna_get_results_aux false records

/-! ## Connection, transaction and execution model
(ext/sedna.c lines 191-366 and 516-905)

The Ruby-level control flow is explicit: `rb_protect` captures a
non-local exit as a tag and `rb_jump_tag` re-raises it, so every
embedded operation returns its final connection state, the trace of
Driver protocol calls it issued, and an optional `RubyJump` (the raise
that leaves the function, `none` for a normal return).  `SEconnectionStatus`
and `SEtransactionStatus` read fields of the local connection struct and
are not protocol calls, so they do not appear in the trace. -/

/-- The error classes of the extension (`Sedna::Exception` and its three
subclasses). -/
inductive ErrKind
  | auth | conn | trn | gen
  deriving DecidableEq

/-- A non-local exit travelling through `rb_protect` / `rb_jump_tag`. -/
inductive RubyJump
  /-- An unwind raised inside a user-supplied block (`raise`, `throw`,
  `break`, …), identified by its `rb_protect` tag. -/
  | blockSignal (tag : Nat)
  /-- An exception raised by `sedna_err` (its message is derived from the
  Driver's last-error text, see `sedna_err_msg`). -/
  | classified (kind : ErrKind)
  /-- A direct `rb_raise` with a literal message. -/
  | raised (kind : ErrKind) (msg : String)
  deriving DecidableEq

/-- One Driver protocol call (a network round-trip of `libsedna`). -/
inductive DCall
  | connect
  | close
  | execute (query : String)
  | beginTr
  | commitTr
  | rollbackTr
  | setAttr (value : Bool)
  deriving DecidableEq

/-- The client-visible connection state: `connOk` is
`SEconnectionStatus(conn) == SEDNA_CONNECTION_OK` (the extension only
ever distinguishes open from closed), `trActive` is
`SEtransactionStatus(conn) == SEDNA_TRANSACTION_ACTIVE`, and `acAttr`
is the autocommit attribute as last set via `SEsetConnectionAttr`. -/
structure Conn where
  connOk : Bool
  trActive : Bool
  acAttr : Bool
  deriving DecidableEq

/-- Result of `SEconnect`. -/
inductive ConnectRes
  | sessionOpen | authFailed | openFailed
  deriving DecidableEq

/-- Result of `SEexecute`. -/
inductive ExecRes
  | querySucceeded | updateSucceeded | bulkLoadSucceeded | execError
  deriving DecidableEq

/-- The external Driver, modelled by the result codes it returns to each
primitive and by the record stream a successful query produces. -/
structure Driver where
  connectRes : ConnectRes
  closeOk : Bool
  setAttrOk : Bool
  beginOk : Bool
  commitOk : Bool
  rollbackOk : Bool
  execRes : ExecRes
  results : List (List (List Nat))
  deriving DecidableEq

/-- Outcome of one embedded C function: final connection state, trace of
Driver protocol calls, and the raise leaving the function (if any). -/
structure Step where
  conn : Conn
  calls : List DCall
  jump : Option RubyJump
  deriving DecidableEq

/-- `sedna_autocommit` (lines 291-296): `SEsetConnectionAttr` followed by
`VERIFY_RES`, which calls `sedna_err` on failure (the failing result is
not one of the listed transaction/connection codes, so the `default`
case raises the generic `Sedna::Exception`).  Whether a failed
set-attribute call changed the attribute is the Driver's business; we
leave it unchanged. -/
def sedna_autocommit (d : Driver) (c : Conn) (value : Bool) : Step :=
  if d.setAttrOk then
    { conn := { c with acAttr := value }, calls := [.setAttr value], jump := none }
  else
    { conn := c, calls := [.setAttr value], jump := some (.classified .gen) }

/-- `sedna_begin` (lines 298-309): disable autocommit, then `SEbegin`
with `VERIFY_RES` (begin failure classifies as a Transaction error). -/
def sedna_begin (d : Driver) (c : Conn) : Step :=
  let s1 := sedna_autocommit d c false
  match s1.jump with
  | some e => { s1 with jump := some e }
  | none =>
      if d.beginOk then
        { conn := { s1.conn with trActive := true },
          calls := s1.calls ++ [.beginTr], jump := none }
      else
        { conn := s1.conn, calls := s1.calls ++ [.beginTr],
          jump := some (.classified .trn) }

/-- `sedna_tr_commit` (lines 311-324): commit if a transaction is active
(failure classifies as a Transaction error), otherwise raise
`Sedna::TransactionError` directly. -/
def sedna_tr_commit (d : Driver) (c : Conn) : Step :=
  if c.trActive then
    if d.commitOk then
      { conn := { c with trActive := false }, calls := [.commitTr], jump := none }
    else
      { conn := c, calls := [.commitTr], jump := some (.classified .trn) }
  else
    { conn := c, calls := [],
      jump := some (.raised .trn "No transaction in progress, cannot commit.") }

/-- `sedna_commit` (lines 326-339): `rb_protect(sedna_tr_commit)`, then
`SWITCH_SEDNA_AUTOCOMMIT(conn, @autocommit)` (whose own raise would
propagate immediately), then `rb_jump_tag(status)` re-raising the
protected commit's exception. -/
def sedna_commit (d : Driver) (c : Conn) (ivAutocommit : Bool) : Step :=
  let s1 := sedna_tr_commit d c
  let s2 := sedna_autocommit d s1.conn ivAutocommit
  match s2.jump with
  | some e => { conn := s2.conn, calls := s1.calls ++ s2.calls, jump := some e }
  | none => { conn := s2.conn, calls := s1.calls ++ s2.calls, jump := s1.jump }

/-- `sedna_tr_rollback` (lines 341-351): roll back only if a transaction
is active (failure classifies as a Transaction error); otherwise do
nothing at all. -/
def sedna_tr_rollback (d : Driver) (c : Conn) : Step :=
  if c.trActive then
    if d.rollbackOk then
      { conn := { c with trActive := false }, calls := [.rollbackTr], jump := none }
    else
      { conn := c, calls := [.rollbackTr], jump := some (.classified .trn) }
  else
    { conn := c, calls := [], jump := none }

/-- `sedna_rollback` (lines 353-366): `rb_protect(sedna_tr_rollback)`,
autocommit restoration, then `rb_jump_tag(status)`. -/
def sedna_rollback (d : Driver) (c : Conn) (ivAutocommit : Bool) : Step :=
  let s1 := sedna_tr_rollback d c
  let s2 := sedna_autocommit d s1.conn ivAutocommit
  match s2.jump with
  | some e => { conn := s2.conn, calls := s1.calls ++ s2.calls, jump := some e }
  | none => { conn := s2.conn, calls := s1.calls ++ s2.calls, jump := s1.jump }

/-- `sedna_connect` (lines 204-217): call `SEconnect`; on success the
Driver marks the connection open; on any other result the extension
force-sets `conn->isConnectionOk = SEDNA_CONNECTION_CLOSED` itself and
then calls `sedna_err` (`SEDNA_AUTHENTICATION_FAILED` classifies as
`Sedna::AuthenticationError`, `SEDNA_OPEN_SESSION_FAILED` as
`Sedna::ConnectionError`). -/
def sedna_connect (d : Driver) (c : Conn) : Step :=
  match d.connectRes with
  | .sessionOpen =>
      { conn := { c with connOk := true }, calls := [.connect], jump := none }
  | .authFailed =>
      { conn := { c with connOk := false }, calls := [.connect],
        jump := some (.classified .auth) }
  | .openFailed =>
      { conn := { c with connOk := false }, calls := [.connect],
        jump := some (.classified .conn) }

/-- `sedna_close` (lines 219-227, the body of `Sedna#close`): a no-op
unless the status differs from `SEDNA_CONNECTION_CLOSED`; otherwise
`SEclose` with `VERIFY_RES` (close failure classifies as a Connection
error; the driver-side status after a failed close is the Driver's
business, so the state is left as it was). -/
def sedna_close (d : Driver) (c : Conn) : Step :=
  if c.connOk then
    if d.closeOk then
      { conn := { c with connOk := false }, calls := [.close], jump := none }
    else
      { conn := c, calls := [.close], jump := some (.classified .conn) }
  else
    { conn := c, calls := [], jump := none }

/-- `cSedna_connected` (lines 573-580, `Sedna#connected?`): the
client-side status only. -/
def cSedna_connected (c : Conn) : Bool :=
  c.connOk

/-- Outcome of `Sedna#execute`: a `Step` plus the returned value
(`some records` for a select query, `none` for the `nil` returned on
updates and bulk loads, or on a raise). -/
structure ExecOut where
  conn : Conn
  calls : List DCall
  jump : Option RubyJump
  ret : Option (List (List Nat))
  deriving DecidableEq

/-- `cSedna_execute` (lines 623-649, `Sedna#execute`): raise
`Sedna::ConnectionError` (before any Driver call) unless the status is
`SEDNA_CONNECTION_OK`; otherwise dispatch `SEexecute` and interpret its
result code, draining the result set on `SEDNA_QUERY_SUCCEEDED`. -/
def cSedna_execute (d : Driver) (c : Conn) (query : String) : ExecOut :=
  if c.connOk = false then
    { conn := c, calls := [],
      jump := some (.raised .conn "Connection is closed."), ret := none }
  else
    match d.execRes with
    | .querySucceeded =>
        { conn := c, calls := [.execute query], jump := none,
          ret := some (sedna_get_results d.results) }
    | .updateSucceeded =>
        { conn := c, calls := [.execute query], jump := none, ret := none }
    | .bulkLoadSucceeded =>
        { conn := c, calls := [.execute query], jump := none, ret := none }
    | .execError =>
        { conn := c, calls := [.execute query],
          jump := some (.classified .gen), ret := none }

/-- `cSedna_transaction` (lines 833-859, `Sedna#transaction`) in its
with-block form: `sedna_begin`, then `rb_protect(rb_yield)` around the
user block `body` (modelled as a function from the connection state to
a new state and an optional unwind), then either `sedna_commit` (block
completed) or `sedna_rollback` followed by `rb_jump_tag(status)` (block
unwound).  If the rollback step itself raises, that raise leaves the
function before the original tag is re-raised. -/
def cSedna_transaction (d : Driver) (c : Conn) (ivAutocommit : Bool)
    (body : Conn → Conn × Option RubyJump) : Step :=
  let s1 := sedna_begin d c
  match s1.jump with
  | some e => { s1 with jump := some e }
  | none =>
      match body s1.conn with
      | (c2, none) =>
          let s3 := sedna_commit d c2 ivAutocommit
          { conn := s3.conn, calls := s1.calls ++ s3.calls, jump := s3.jump }
      | (c2, some sig) =>
          let s3 := sedna_rollback d c2 ivAutocommit
          match s3.jump with
          | some e =>
              { conn := s3.conn, calls := s1.calls ++ s3.calls, jump := some e }
          | none =>
              { conn := s3.conn, calls := s1.calls ++ s3.calls,
                jump := some sig }

/-- The freshly allocated connection of `cSedna_s_new` /
`cSedna_initialize` before `sedna_connect` runs
(`SEDNA_CONNECTION_INITIALIZER` starts closed; `@autocommit` is
initialized to `true`). -/
def initConn : Conn :=
  { connOk := false, trActive := false, acAttr := true }

/-- `cSedna_s_connect` (lines 516-539, `Sedna.connect`) in its
with-block form: `new` runs `cSedna_initialize`, whose `sedna_connect`
raise propagates directly (no block is run, no close is attempted);
on success the block is run under `rb_protect`, then `cSedna_close` is
called unprotected — its raise leaves the function — and finally the
block's captured unwind is re-raised by `rb_jump_tag(status)` (or `nil`
is returned). -/
def cSedna_s_connect (d : Driver)
    (body : Conn → Conn × Option RubyJump) : Step :=
  let s1 := sedna_connect d initConn
  match s1.jump with
  | some e => { s1 with jump := some e }
  | none =>
      match body s1.conn with
      | (c2, st) =>
          let s3 := sedna_close d c2
          match s3.jump with
          | some e =>
              { conn := s3.conn, calls := s1.calls ++ s3.calls, jump := some e }
          | none =>
              { conn := s3.conn, calls := s1.calls ++ s3.calls, jump := st }

/-! ## Concrete Drivers used by witnesses and counterexamples -/

/-- A Driver whose every primitive succeeds. -/
def dOk : Driver where
  connectRes := .sessionOpen
  closeOk := true
  setAttrOk := true
  beginOk := true
  commitOk := true
  rollbackOk := true
  execRes := .updateSucceeded
  results := []

/-- A Driver whose `SErollback` fails (everything else succeeds). -/
def dRollbackFails : Driver where
  connectRes := .sessionOpen
  closeOk := true
  setAttrOk := true
  beginOk := true
  commitOk := true
  rollbackOk := false
  execRes := .updateSucceeded
  results := []

/-- A Driver whose `SEclose` fails (everything else succeeds). -/
def dCloseFails : Driver where
  connectRes := .sessionOpen
  closeOk := false
  setAttrOk := true
  beginOk := true
  commitOk := true
  rollbackOk := true
  execRes := .updateSucceeded
  results := []

/-- A Driver whose `SEconnect` fails with `SEDNA_OPEN_SESSION_FAILED`. -/
def dConnectFails : Driver where
  connectRes := .openFailed
  closeOk := true
  setAttrOk := true
  beginOk := true
  commitOk := true
  rollbackOk := true
  execRes := .updateSucceeded
  results := []

/-! ## Helper lemmas -/

/-- Once `strip_n` has been set it stays set: the tail of the record loop
strips every record. -/
theorem sedna_get_results_aux_true (rs : List (List (List Nat))) :
    sedna_get_results_aux true rs = rs.map (sedna_read true) := by
  induction rs with
  | nil => rfl
  | cons r rest ih => simp [sedna_get_results_aux, ih]

/-- `sedna_begin` under a well-behaved Driver: autocommit off, transaction
active, no raise. -/
theorem sedna_begin_ok (d : Driver) (c : Conn)
    (hset : d.setAttrOk = true) (hbegin : d.beginOk = true) :
    sedna_begin d c =
      { conn := { connOk := c.connOk, trActive := true, acAttr := false },
        calls := [.setAttr false, .beginTr], jump := none } := by
  simp [sedna_begin, sedna_autocommit, hset, hbegin]

/-- `sedna_rollback` on an active transaction under a well-behaved Driver:
transaction ended, autocommit restored, no raise. -/
theorem sedna_rollback_ok_active (d : Driver) (c : Conn) (iv : Bool)
    (hset : d.setAttrOk = true) (hroll : d.rollbackOk = true)
    (htr : c.trActive = true) :
    sedna_rollback d c iv =
      { conn := { connOk := c.connOk, trActive := false, acAttr := iv },
        calls := [.rollbackTr, .setAttr iv], jump := none } := by
  simp [sedna_rollback, sedna_tr_rollback, sedna_autocommit, hset, hroll, htr]

/-! ## Claims -/

/-- C1: after a successful query, exactly one leading byte is dropped
from the first non-empty buffer read of every record except the first
record of the set — never from the first record, never from a later
buffer read of the same record; in particular a 3-record set whose
records 2 and 3 arrive with a spurious leading byte `b` and whose
record 1 does not drains to exactly 3 records in server order, none
containing `b`, record 1 intact. -/
theorem resultStreamer_strips_nonfirst
    (r1 : List (List Nat)) (rs : List (List (List Nat)))
    (blk : List Nat) (rest : List (List Nat))
    (c1 c2 c3 : List Nat) (b : Nat)
    (hblk : blk ≠ []) (h1 : b ∉ c1) (h2 : b ∉ c2) (h3 : b ∉ c3) :
    sedna_get_results (r1 :: rs)
        = sedna_read false r1 :: rs.map (sedna_read true) ∧
    sedna_read true (blk :: rest) = blk.drop 1 ++ sedna_read false rest ∧
    sedna_read false (blk :: rest) = blk ++ sedna_read false rest ∧
    sedna_get_results [[c1], [b :: c2], [b :: c3]] = [c1, c2, c3] ∧
    ∀ r ∈ sedna_get_results [[c1], [b :: c2], [b :: c3]], b ∉ r := by
  have h4 : sedna_get_results [[c1], [b :: c2], [b :: c3]] = [c1, c2, c3] := by
    rcases c1 with _ | ⟨x, xs⟩ <;>
      simp [sedna_get_results, sedna_get_results_aux, sedna_read]
  refine ⟨?_, ?_, ?_, h4, ?_⟩
  · simp [sedna_get_results, sedna_get_results_aux, sedna_get_results_aux_true]
  · simp [sedna_read, List.length_eq_zero, hblk]
  · simp [sedna_read, List.length_eq_zero, hblk]
  · rw [h4]
    simp only [List.mem_cons, List.not_mem_nil, or_false]
    rintro r (rfl | rfl | rfl) <;> assumption

/-- Witness for C1 at a concrete 3-record set (records two and three
prefixed with the spurious byte `9`, chunk sizes below the buffer
bound). -/
theorem resultStreamer_strips_nonfirst_witness :
    sedna_get_results [[[1, 2]], [[9, 3, 4]], [[9, 5]]] = [[1, 2], [3, 4], [5]] ∧
    sedna_read true [[9, 3], [6]] = [3, 6] := by
  have h := resultStreamer_strips_nonfirst [[1, 2]] [] [9, 3] [[6]]
      [1, 2] [3, 4] [5] 9 (by decide) (by decide) (by decide) (by decide)
  refine ⟨h.2.2.2.1, ?_⟩
  rw [h.2.1]
  decide

/-- C2 counterexample: when the protocol rollback itself fails, the
classified Transaction error raised by `sedna_rollback` leaves
`cSedna_transaction` before `rb_jump_tag(status)` runs, so the caller
receives that error instead of the block unwind (tag 7). -/
theorem transaction_unwind_substituted_cex :
    (cSedna_transaction dRollbackFails
        { connOk := true, trActive := false, acAttr := true } true
        (fun c => (c, some (.blockSignal 7)))).jump
      = some (.classified .trn) ∧
    some (RubyJump.classified .trn) ≠ some (RubyJump.blockSignal 7) ∧
    DCall.rollbackTr ∈ (cSedna_transaction dRollbackFails
        { connOk := true, trActive := false, acAttr := true } true
        (fun c => (c, some (.blockSignal 7)))).calls := by
  decide

/-- C2 (amended): if the body of `Sedna#transaction` unwinds and the
rollback step raises nothing (the protocol rollback and the autocommit
restoration both succeed), a protocol rollback is issued (the body
having left the transaction active) and the original unwind signal is
re-propagated to the caller unchanged; when the rollback step itself
raises, its error replaces the original signal. -/
theorem transaction_unwind_repropagated (d : Driver) (c : Conn) (iv : Bool)
    (body : Conn → Conn × Option RubyJump) (sig : RubyJump)
    (hset : d.setAttrOk = true) (hbegin : d.beginOk = true)
    (hroll : d.rollbackOk = true)
    (hbody : (body (sedna_begin d c).conn).2 = some sig)
    (htr : (body (sedna_begin d c).conn).1.trActive = true) :
    (cSedna_transaction d c iv body).jump = some sig ∧
    DCall.rollbackTr ∈ (cSedna_transaction d c iv body).calls := by
  rcases hb : body (sedna_begin d c).conn with ⟨c2, st⟩
  rw [hb] at hbody htr
  simp only at hbody htr
  subst hbody
  rw [sedna_begin_ok d c hset hbegin] at hb
  simp only [cSedna_transaction, sedna_begin_ok d c hset hbegin, hb,
    sedna_rollback_ok_active d c2 iv hset hroll htr]
  simp

/-- Witness for C2 (amended) at a concrete run: a well-behaved Driver, a
body that unwinds with tag 7 and leaves the state alone. -/
theorem transaction_unwind_repropagated_witness :
    (cSedna_transaction dOk { connOk := true, trActive := false, acAttr := true }
        true (fun c => (c, some (.blockSignal 7)))).jump
      = some (.blockSignal 7) ∧
    DCall.rollbackTr ∈ (cSedna_transaction dOk
        { connOk := true, trActive := false, acAttr := true } true
        (fun c => (c, some (.blockSignal 7)))).calls :=
  transaction_unwind_repropagated dOk
    { connOk := true, trActive := false, acAttr := true } true
    (fun c => (c, some (.blockSignal 7))) (.blockSignal 7)
    rfl rfl rfl (by decide) (by decide)

/-- C3: on every exit path of `commit` and of `rollback` — the protocol
call succeeding or failing, a transaction active or not — the autocommit
attribute is restored to the stored `@autocommit` preference in the
state handed back alongside the result or the raise (given that the
Driver accepts the set-attribute call). -/
theorem autocommit_restored (d : Driver) (c : Conn) (iv : Bool)
    (hset : d.setAttrOk = true) :
    (sedna_commit d c iv).conn.acAttr = iv ∧
    (sedna_rollback d c iv).conn.acAttr = iv := by
  constructor
  · simp [sedna_commit, sedna_autocommit, hset]
  · simp [sedna_rollback, sedna_autocommit, hset]

/-- Witness for C3: a failing commit (no transaction active) and a
no-op rollback both leave the attribute at the stored preference. -/
theorem autocommit_restored_witness :
    (sedna_commit dOk { connOk := true, trActive := false, acAttr := false }
        true).conn.acAttr = true ∧
    (sedna_rollback dOk { connOk := true, trActive := false, acAttr := false }
        true).conn.acAttr = true :=
  autocommit_restored dOk
    { connOk := true, trActive := false, acAttr := false } true rfl

/-- C4 counterexample: classifying
`"Header\nActual message\nDetails: line one\nline two\n"` yields
`"Actual message (line one line two )"` — the `while` loop replaces the
trailing line break of the details text with a space too, so the
parenthesized details end in a space, unlike the claimed
`"Actual message (line one line two)"`. -/
theorem err_details_trailing_space_cex :
    sedna_err_msg ("Header\nActual message\nDetails: line one\nline two\n".toList)
        = some ("Actual message (line one line two )".toList) ∧
    ("Actual message (line one line two )".toList : List Char)
        ≠ ("Actual message (line one line two)".toList) := by
  decide

/-- C4 (amended): the primary message is the text between the first and
the second line break, and the text after the `"\nDetails: "` marker has
every line break — the trailing one included — replaced by a space
before being appended in parentheses, so the example classifies to
`"Actual message (line one line two )"`. -/
theorem err_details_classify :
    sedna_err_msg ("Header\nActual message\nDetails: line one\nline two\n".toList)
        = some ("Actual message (line one line two )".toList) := by
  decide

/-- C5: a failed `SEconnect` leaves the status force-set to closed in
the state handed back with the raise, `connected?` then reports false,
and `sedna_close` on any already-closed connection issues no protocol
call, raises nothing and changes nothing. -/
theorem connect_close_guard (d d2 : Driver) (c c2 : Conn)
    (hfail : d.connectRes ≠ ConnectRes.sessionOpen)
    (hclosed : c2.connOk = false) :
    (sedna_connect d c).conn.connOk = false ∧
    (sedna_connect d c).jump.isSome = true ∧
    cSedna_connected (sedna_connect d c).conn = false ∧
    sedna_close d2 c2 = { conn := c2, calls := [], jump := none } := by
  have hclose : sedna_close d2 c2 = { conn := c2, calls := [], jump := none } := by
    simp [sedna_close, hclosed]
  rcases hres : d.connectRes with _ | _ | _
  · exact absurd hres hfail
  · exact ⟨by simp [sedna_connect, hres], by simp [sedna_connect, hres],
      by simp [cSedna_connected, sedna_connect, hres], hclose⟩
  · exact ⟨by simp [sedna_connect, hres], by simp [sedna_connect, hres],
      by simp [cSedna_connected, sedna_connect, hres], hclose⟩

/-- Witness for C5: a Driver refusing the session, and a second close of
an already-closed connection. -/
theorem connect_close_guard_witness :
    (sedna_connect dConnectFails initConn).conn.connOk = false ∧
    (sedna_connect dConnectFails initConn).jump.isSome = true ∧
    cSedna_connected (sedna_connect dConnectFails initConn).conn = false ∧
    sedna_close dOk initConn = { conn := initConn, calls := [], jump := none } :=
  connect_close_guard dConnectFails dOk initConn initConn
    (by decide) (by decide)

/-- C6 counterexample: `commit` without an active transaction raises the
literal message "No transaction in progress, cannot commit." — not
"no transaction in progress" — and it is not entirely state-free: the
autocommit restoration still runs, so a connection whose attribute
differed from the stored preference comes back changed. -/
theorem commit_no_transaction_cex :
    (sedna_commit dOk { connOk := true, trActive := false, acAttr := false }
        true).jump
      = some (.raised .trn "No transaction in progress, cannot commit.") ∧
    "No transaction in progress, cannot commit." ≠ "no transaction in progress" ∧
    (sedna_commit dOk { connOk := true, trActive := false, acAttr := false }
        true).conn
      ≠ { connOk := true, trActive := false, acAttr := false } := by
  decide

/-- C6 (amended): `commit` on a connection with no active transaction
raises a Transaction error with message
"No transaction in progress, cannot commit.", issues no protocol commit
call — the only Driver call is the autocommit restoration, which
re-asserts the stored preference — and leaves the state unchanged except
for that attribute (unchanged entirely whenever the attribute already
equals the preference). -/
theorem commit_no_transaction (d : Driver) (c : Conn) (iv : Bool)
    (htr : c.trActive = false) (hset : d.setAttrOk = true) :
    sedna_commit d c iv =
      { conn := { connOk := c.connOk, trActive := false, acAttr := iv },
        calls := [.setAttr iv],
        jump := some (.raised .trn "No transaction in progress, cannot commit.") } := by
  simp [sedna_commit, sedna_tr_commit, sedna_autocommit, htr, hset]

/-- Witness for C6 (amended): a connection in the steady state (no
transaction, attribute equal to the preference) raises and is returned
unchanged. -/
theorem commit_no_transaction_witness :
    sedna_commit dOk { connOk := true, trActive := false, acAttr := true } true =
      { conn := { connOk := true, trActive := false, acAttr := true },
        calls := [.setAttr true],
        jump := some (.raised .trn "No transaction in progress, cannot commit.") } :=
  commit_no_transaction dOk
    { connOk := true, trActive := false, acAttr := true } true rfl rfl

/-- C7: `rollback` on a connection with no active transaction is a
silent no-op — no protocol rollback call, no raise — and repeating it
gives the identical outcome (idempotence), asymmetric with commit by
design. -/
theorem rollback_no_transaction_noop (d : Driver) (c : Conn) (iv : Bool)
    (htr : c.trActive = false) (hset : d.setAttrOk = true) :
    (sedna_rollback d c iv).jump = none ∧
    DCall.rollbackTr ∉ (sedna_rollback d c iv).calls ∧
    sedna_rollback d (sedna_rollback d c iv).conn iv = sedna_rollback d c iv := by
  have h : sedna_rollback d c iv =
      { conn := { connOk := c.connOk, trActive := false, acAttr := iv },
        calls := [.setAttr iv], jump := none } := by
    simp [sedna_rollback, sedna_tr_rollback, sedna_autocommit, htr, hset]
  refine ⟨by rw [h], by rw [h]; simp, ?_⟩
  rw [h]
  simp [sedna_rollback, sedna_tr_rollback, sedna_autocommit, hset]

/-- Witness for C7: two successive rollbacks with no transaction in
progress, both silent. -/
theorem rollback_no_transaction_noop_witness :
    (sedna_rollback dOk { connOk := true, trActive := false, acAttr := true }
        true).jump = none ∧
    DCall.rollbackTr ∉ (sedna_rollback dOk
        { connOk := true, trActive := false, acAttr := true } true).calls ∧
    sedna_rollback dOk (sedna_rollback dOk
        { connOk := true, trActive := false, acAttr := true } true).conn true
      = sedna_rollback dOk
        { connOk := true, trActive := false, acAttr := true } true :=
  rollback_no_transaction_noop dOk
    { connOk := true, trActive := false, acAttr := true } true rfl rfl

/-- C8: `execute` on a connection whose status is not OK raises
`Sedna::ConnectionError` ("Connection is closed.") at once, issues no
Driver call at all — in particular the execute primitive is never
invoked — and returns no result. -/
theorem execute_closed_no_driver (d : Driver) (c : Conn) (q : String)
    (h : c.connOk = false) :
    cSedna_execute d c q =
      { conn := c, calls := [],
        jump := some (.raised .conn "Connection is closed."), ret := none } := by
  simp [cSedna_execute, h]

/-- Witness for C8: a query on a closed connection. -/
theorem execute_closed_no_driver_witness :
    cSedna_execute dOk initConn "doc('x')" =
      { conn := initConn, calls := [],
        jump := some (.raised .conn "Connection is closed."), ret := none } :=
  execute_closed_no_driver dOk initConn "doc('x')" rfl

/-- C9: on a last-error text with no line break at all, `sedna_err`
evaluates `strstr(err, "\nDetails: ")` with `err == NULL` before its own
NULL test — undefined behaviour (modelled `none`), so the intended
"Unknown error." substitution of the `else` branch is never reached
soundly. -/
theorem err_no_newline_undefined :
    sedna_err_msg ("The operation failed with no explanation".toList) = none := by
  decide

/-- C10 counterexample: when the final `cSedna_close` of `Sedna.connect`
fails, its `Sedna::ConnectionError` leaves the function before
`rb_jump_tag(status)` re-raises the block unwind (tag 5) — and the
connection is not closed either. -/
theorem s_connect_close_error_cex :
    (cSedna_s_connect dCloseFails (fun c => (c, some (.blockSignal 5)))).jump
      = some (.classified .conn) ∧
    some (RubyJump.classified .conn) ≠ some (RubyJump.blockSignal 5) ∧
    (cSedna_s_connect dCloseFails
        (fun c => (c, some (.blockSignal 5)))).conn.connOk = true := by
  decide

/-- C10 (amended): for `Sedna.connect` with a block, when the final
close raises nothing (the protocol close succeeds), the connection is
closed on every exit path of the block and the block outcome is
surfaced unchanged — `nil` (no raise) when the block completed, the
original unwind signal otherwise; a failing close instead replaces the
outcome with its own ConnectionError. -/
theorem s_connect_block_closes (d : Driver)
    (body : Conn → Conn × Option RubyJump)
    (hconn : d.connectRes = ConnectRes.sessionOpen) (hclose : d.closeOk = true) :
    (cSedna_s_connect d body).conn.connOk = false ∧
    (cSedna_s_connect d body).jump
        = (body { connOk := true, trActive := false, acAttr := true }).2 := by
  have hc : sedna_connect d initConn =
      { conn := { connOk := true, trActive := false, acAttr := true },
        calls := [.connect], jump := none } := by
    simp [sedna_connect, hconn, initConn]
  rcases hb : body { connOk := true, trActive := false, acAttr := true }
    with ⟨c2, st⟩
  rcases hc2 : c2.connOk with _ | _
  · simp [cSedna_s_connect, hc, hb, sedna_close, hc2]
  · simp [cSedna_s_connect, hc, hb, sedna_close, hc2, hclose]

/-- Witness for C10 (amended): a block that unwinds with tag 5 under a
well-behaved Driver — the connection ends closed and tag 5 is the
surfaced outcome. -/
theorem s_connect_block_closes_witness :
    (cSedna_s_connect dOk (fun c => (c, some (.blockSignal 5)))).conn.connOk
      = false ∧
    (cSedna_s_connect dOk (fun c => (c, some (.blockSignal 5)))).jump
      = ((fun (c : Conn) => (c, some (RubyJump.blockSignal 5)))
          { connOk := true, trActive := false, acAttr := true }).2 :=
  s_connect_block_closes dOk (fun c => (c, some (.blockSignal 5))) rfl rfl

end SednaExt
